import Mathlib

/-!
Shallow embedding of the network-mapper core (daveposh/network-mapper).

Python sources embedded here:
* `src/device_classifier.py` — device-type scoring, quick classification,
  TTL-based OS fallback, quick port checking;
* `src/scanner.py` — host discovery with ping fallback, quick port scan,
  service scan with basic fallback;
* `network_mapper.py` — the per-host pipelines and `scan_network`.

Network effects (connection attempts, nmap runs, ping replies) are modelled
as oracle inputs: each effectful call's outcome is a parameter, `Except`
capturing a Python call that may raise.  Python `int` scores are `Nat`
(they only grow by `+2/+3/+5`).
-/

namespace NetMapper

/-- Python truthiness-free helper: `leadsWith pat s` is true when `pat` is an
initial run of `s` (used to embed Python substring containment). -/
def leadsWith : List Char → List Char → Bool
  | [], _ => true
  | _ :: _, [] => false
  | a :: ps, b :: ss => a == b && leadsWith ps ss

/-- Embedding of Python `pat in s` on strings: `pat` occurs contiguously in `s`. -/
def occursIn (pat : List Char) : List Char → Bool
  | [] => leadsWith pat []
  | b :: ss => leadsWith pat (b :: ss) || occursIn pat ss

/-- Python `str.lower()` restricted to the character map (ASCII-faithful). -/
def lowerChars (s : String) : List Char :=
  s.toList.map Char.toLower

/-- Boolean success test for an embedded Python call outcome. -/
def isOkB {ε α : Type} : Except ε α → Bool
  | Except.ok _ => true
  | Except.error _ => false

/-- One entry of `DeviceClassifier._load_device_patterns`
(`src/device_classifier.py`, lines 24-75). -/
structure DevicePattern where
  label : String
  ports : List Nat
  services : List String
  patterns : List String
  priority : Nat
deriving DecidableEq

/-- The `router` entry of `_load_device_patterns` (lines 27-32). -/
def routerPattern : DevicePattern :=
  ⟨"router", [80, 443, 22, 23], ["http", "https", "ssh", "telnet"],
    ["router", "gateway", "cisco", "juniper", "fortinet"], 1⟩

/-- The `switch` entry of `_load_device_patterns` (lines 33-38). -/
def switchPattern : DevicePattern :=
  ⟨"switch", [22, 23, 80, 443], ["ssh", "telnet", "http", "https"],
    ["switch", "catalyst", "nexus"], 2⟩

/-- The `server` entry of `_load_device_patterns` (lines 39-44). -/
def serverPattern : DevicePattern :=
  ⟨"server", [22, 80, 443, 3306, 5432, 27017],
    ["ssh", "http", "https", "mysql", "postgresql", "mongodb"],
    ["server", "apache", "nginx", "mysql", "postgresql"], 3⟩

/-- The `printer` entry of `_load_device_patterns` (lines 45-50). -/
def printerPattern : DevicePattern :=
  ⟨"printer", [80, 443, 631, 9100], ["http", "https", "ipp", "printer"],
    ["printer", "hp", "canon", "epson", "brother"], 4⟩

/-- The `camera` entry of `_load_device_patterns` (lines 51-56). -/
def cameraPattern : DevicePattern :=
  ⟨"camera", [80, 443, 554, 8000], ["http", "https", "rtsp"],
    ["camera", "ipcam", "dvr", "nvr"], 5⟩

/-- The `iot` entry of `_load_device_patterns` (lines 57-62). -/
def iotPattern : DevicePattern :=
  ⟨"iot", [80, 443, 1883, 8883], ["http", "https", "mqtt"],
    ["iot", "smart", "home", "automation"], 6⟩

/-- The `mobile` entry of `_load_device_patterns` (lines 63-68). -/
def mobilePattern : DevicePattern :=
  ⟨"mobile", [80, 443], ["http", "https"],
    ["mobile", "android", "ios", "phone"], 7⟩

/-- The `workstation` entry of `_load_device_patterns` (lines 69-74). -/
def workstationPattern : DevicePattern :=
  ⟨"workstation", [22, 80, 443, 3389], ["ssh", "http", "https", "rdp"],
    ["windows", "linux", "mac", "desktop"], 8⟩

/-- The device-pattern registry of `_load_device_patterns`, in Python dict
insertion order (`src/device_classifier.py`, lines 26-75). -/
def device_patterns : List DevicePattern :=
  [routerPattern, switchPattern, serverPattern, printerPattern,
   cameraPattern, iotPattern, mobilePattern, workstationPattern]

/-- Score accumulation of `classify_device` for one pattern
(`src/device_classifier.py`, lines 123-142): +2 per open port in the
pattern's port list, +3 per service in its service list, +5 per pattern
substring of the lower-cased hostname. -/
def scoreDevice (open_ports : List Nat) (services : List String)
    (hostname : String) (pat : DevicePattern) : Nat :=
  let s1 := open_ports.foldl
    (fun score port => if pat.ports.contains port then score + 2 else score) 0
  let s2 := services.foldl
    (fun score sv => if pat.services.contains sv then score + 3 else score) s1
  let hn := lowerChars hostname
  pat.patterns.foldl
    (fun score ps => if occursIn ps.toList hn then score + 5 else score) s2

/-- Embedding of Python `max(items, key=lambda x: x[1])` over a nonempty
association list (`src/device_classifier.py`, line 146): the running best is
replaced only on a strictly greater score, so the first maximiser wins. -/
def pickMax (b : String × Nat) (xs : List (String × Nat)) : String × Nat :=
  xs.foldl (fun best y => if best.2 < y.2 then y else best) b

/-- Pure tail of `classify_device` (`src/device_classifier.py`, lines
115-150) once the open ports, services and a non-`None` hostname are in
hand: score each registry pattern, take the max-scoring label, and fall
back to `"unknown"` when the best score is 0. -/
def classifyFacts (open_ports : List Nat) (services : List String)
    (hostname : String) : String :=
  let scores := device_patterns.map
    (fun p => (p.label, scoreDevice open_ports services hostname p))
  match scores with
  | [] => "unknown"
  | x :: xs =>
    let best := pickMax x xs
    if best.2 > 0 then best.1 else "unknown"

/-- HostCandidate dict built by discovery (`src/scanner.py`, lines 44-49 and
234-239): keys `ip`, `mac`, `hostname` (the constant `state: up` key is
never read downstream and is omitted). -/
structure Device where
  ip : String
  mac : Option String
  hostname : Option String
deriving DecidableEq

/-- TTL classification ladder of `_detect_os_by_ttl`
(`src/device_classifier.py`, lines 234-241). -/
def classifyTTL (ttl : Nat) : String :=
  if ttl ≤ 64 then "Linux/macOS"
  else if ttl ≤ 128 then "Windows"
  else if ttl ≤ 255 then "Network Device"
  else "Unknown"

/-- The whole of `_detect_os_by_ttl` (`src/device_classifier.py`, lines
194-246): the ping subprocess and the TTL regex search are oracles
(`pingOk` = the ping returned 0 and no exception occurred, `parsedTTL` =
the first regex group as a number, if any pattern matched).  No match, a
failed ping, or an exception all return `none`. -/
def detect_os_by_ttl (pingOk : Bool) (parsedTTL : Option Nat) : Option String :=
  if pingOk then
    match parsedTTL with
    | some ttl => some (classifyTTL ttl)
    | none => none
  else none

/-- Per-port body of `_quick_port_check` (`src/device_classifier.py`, lines
298-308): the connection attempt outcome is the oracle `conn port`; any
exception yields `None`. -/
def check_port (conn : Nat → Except String Unit) (port : Nat) : Option Nat :=
  match conn port with
  | Except.ok _ => some port
  | Except.error _ => none

/-- Collection step shared by `_quick_port_check` and `quick_port_scan`:
`if result and isinstance(result, int)` — Python truthiness appends a
port result only when it is a nonzero int. -/
def keep_truthy_port (acc : List Nat) (r : Option Nat) : List Nat :=
  match r with
  | some p => if p ≠ 0 then acc ++ [p] else acc
  | none => acc

/-- Collection loop of `_quick_port_check` (`src/device_classifier.py`,
lines 293-318). -/
def quick_port_check (conn : Nat → Except String Unit) (ports : List Nat) :
    List Nat :=
  (ports.map (check_port conn)).foldl keep_truthy_port []

/-- The fixed probe set of `quick_classify` (`src/device_classifier.py`,
line 158). -/
def quick_classify_common_ports : List Nat := [22, 23, 80, 443, 3389, 9100]

/-- `quick_classify` (`src/device_classifier.py`, lines 152-171): probe the
fixed common ports, then the port-presence decision ladder. -/
def quick_classify (conn : Nat → Except String Unit) : String :=
  let open_ports := quick_port_check conn quick_classify_common_ports
  if open_ports.contains 9100 then "printer"
  else if open_ports.contains 3389 then "workstation"
  else if open_ports.contains 22 && open_ports.contains 80 then "server"
  else if open_ports.contains 80 || open_ports.contains 443 then "device"
  else "unknown"

/-- Per-port body of `NetworkScanner.quick_port_scan` (`src/scanner.py`,
lines 319-329), identical in shape to `_quick_port_check`. -/
def scanner_check_port (conn : Nat → Except String Unit) (port : Nat) :
    Option Nat :=
  match conn port with
  | Except.ok _ => some port
  | Except.error _ => none

/-- `NetworkScanner.quick_port_scan` (`src/scanner.py`, lines 314-339):
probe every listed port, keep — in probe order — the results passing
`if result and isinstance(result, int)` (so a successful port `0` is
dropped by truthiness). -/
def quick_port_scan (conn : Nat → Except String Unit) (ports : List Nat) :
    List Nat :=
  (ports.map (scanner_check_port conn)).foldl keep_truthy_port []

/-- Per-address body of `_ping_discovery` (`src/scanner.py`, lines 212-244):
a reply (`returncode == 0`) yields a candidate dict with `mac` and
`hostname` set to `None`; a non-reply or exception yields `None`. -/
def ping_host (replies : String → Bool) (ip : String) : Option Device :=
  if replies ip then some ⟨ip, none, none⟩ else none

/-- Collection step of `_ping_discovery`: `if result and
isinstance(result, dict)` — the candidate dicts are nonempty, hence truthy,
so every `some` is kept. -/
def keep_truthy_device (acc : List Device) (r : Option Device) : List Device :=
  match r with
  | some d => acc ++ [d]
  | none => acc

/-- `_ping_discovery` (`src/scanner.py`, lines 206-254): ping every
candidate address of the parsed target network and collect the replying
ones in order. -/
def ping_discovery (hosts : List String) (replies : String → Bool) :
    List Device :=
  (hosts.map (ping_host replies)).foldl keep_truthy_device []

/-- `NetworkScanner.discover_devices` (`src/scanner.py`, lines 29-56): the
nmap `-sn` discovery block is the oracle `primary` (its device list on
success, the raised exception otherwise); any exception switches to the
ping sweep over the parsed candidate addresses. -/
def discover_devices (primary : Except String (List Device))
    (hosts : List String) (replies : String → Bool) : List Device :=
  match primary with
  | Except.ok devs => devs
  | Except.error _ => ping_discovery hosts replies

/-- The `common_services` dict literal of `_basic_port_scan`
(`src/scanner.py`, lines 284-289), in insertion order. -/
def common_services : List (Nat × String) :=
  [(21, "ftp"), (22, "ssh"), (23, "telnet"), (25, "smtp"), (53, "dns"),
   (80, "http"), (110, "pop3"), (143, "imap"), (443, "https"),
   (993, "imaps"), (995, "pop3s"), (3306, "mysql"), (3389, "rdp"),
   (5432, "postgresql"), (8080, "http-proxy"), (8443, "https-alt")]

/-- Collection step of `_basic_port_scan`: `if result and
isinstance(result, tuple)` — a pair is truthy, so every `some` is kept. -/
def keep_truthy_pair (acc : List (Nat × String)) (r : Option (Nat × String)) :
    List (Nat × String) :=
  match r with
  | some pr => acc ++ [pr]
  | none => acc

/-- `_basic_port_scan` (`src/scanner.py`, lines 280-312): try each common
service port; a successful connection contributes the `(port, name)` pair;
the pairs land in a dict whose keys are the distinct common ports. -/
def basic_port_scan (conn : Nat → Except String Unit) : List (Nat × String) :=
  (common_services.map
      (fun pr =>
        match conn pr.1 with
        | Except.ok _ => some pr
        | Except.error _ => none)).foldl keep_truthy_pair []

/-- Python dict assignment `d[k] = v` on an association list kept in
insertion order: overwrite the existing key in place, else append. -/
def dict_set (d : List (Nat × String)) (k : Nat) (v : String) :
    List (Nat × String) :=
  if (d.map Prod.fst).contains k then
    d.map (fun pr => if pr.1 == k then (pr.1, v) else pr)
  else d ++ [(k, v)]

/-- The dict built by the nmap branch of `scan_services` (`src/scanner.py`,
lines 266-272): `services[port] = service_name` over the reported
(protocol, port, name) rows. -/
def dict_of_rows (rows : List (Nat × String)) : List (Nat × String) :=
  rows.foldl (fun d pr => dict_set d pr.1 pr.2) []

/-- `NetworkScanner.scan_services` (`src/scanner.py`, lines 256-278): the
nmap `-sS -sV -O -p-` run is the oracle `nmapRows` (the reported port/name
rows on success, the raised exception otherwise); any exception falls back
to `_basic_port_scan`. -/
def scan_services (nmapRows : Except String (List (Nat × String)))
    (conn : Nat → Except String Unit) : List (Nat × String) :=
  match nmapRows with
  | Except.ok rows => dict_of_rows rows
  | Except.error _ => basic_port_scan conn

/-- The fallback port list of `_get_open_ports`
(`src/device_classifier.py`, line 265). -/
def classifier_common_ports : List Nat :=
  [21, 22, 23, 25, 53, 80, 110, 143, 443, 993, 995, 3306, 3389, 5432, 8080]

/-- Oracle bundle for one run: the outcome of every effectful call of the
pipeline, per host ip (and per probed port).  `manufacturerOf` is modelled
from the spec: `src/mac_lookup.py` is not in the source tree; spec §4.2
fixes `resolve(mac) → vendor_name | unknown`, "No vendor found → `unknown`,
not an error", so the lookup is a total function. -/
structure NetEnv where
  primary : Except String (List Device)
  hosts : List String
  replies : String → Bool
  conn : String → Nat → Except String Unit
  nmapPorts : String → Except String (List Nat)
  nmapServiceNames : String → Except String (List String)
  nmapRows : String → Except String (List (Nat × String))
  osDetect : String → Option String
  protocolsOf : String → List String
  responseTime : String → Option Nat
  manufacturerOf : String → Option String

/-- `_get_open_ports` (`src/device_classifier.py`, lines 248-268): the nmap
`-sS -F` run is an oracle; any exception falls back to a quick check of the
classifier's common ports. -/
def get_open_ports (env : NetEnv) (ip : String) : List Nat :=
  match env.nmapPorts ip with
  | Except.ok ps => ps
  | Except.error _ => quick_port_check (env.conn ip) classifier_common_ports

/-- `_get_services` (`src/device_classifier.py`, lines 270-291): the nmap
`-sV` run is an oracle; any exception leaves the service list empty. -/
def get_services (env : NetEnv) (ip : String) : List String :=
  match env.nmapServiceNames ip with
  | Except.ok svs => svs
  | Except.error _ => []

/-- `classify_device` (`src/device_classifier.py`, lines 112-150): gather
open ports and services, then score the registry.  The scoring loop
evaluates `device.get('hostname', '').lower()` on its first iteration; a
candidate whose stored hostname is `None` makes that call raise
`AttributeError` (the `.get` default only applies to an absent key), so the
call fails before any label is returned. -/
def classify_device (env : NetEnv) (dev : Device) : Except String String :=
  let open_ports := get_open_ports env dev.ip
  let services := get_services env dev.ip
  match dev.hostname with
  | none => Except.error "AttributeError"
  | some hn => Except.ok (classifyFacts open_ports services hn)

/-- `ScanResult` (`network_mapper.py`, lines 37-59) with `__post_init__`
defaults; `last_seen` is never assigned by the pipelines and is omitted,
and the float `response_time` is carried as an abstract `Option Nat`. -/
structure ScanResult where
  ip_address : String
  mac_address : Option String := none
  hostname : Option String := none
  manufacturer : Option String := none
  device_type : Option String := none
  operating_system : Option String := none
  open_ports : List Nat := []
  services : List (Nat × String) := []
  protocols : List String := []
  response_time : Option Nat := none
  scan_mode : String := "unknown"
deriving DecidableEq

/-- The hard-coded `common_ports` of `_discovery_scan`
(`network_mapper.py`, line 164). -/
def mapper_common_ports : List Nat :=
  [21, 22, 23, 25, 53, 80, 110, 143, 443, 993, 995, 3306, 3389, 5432, 8080]

/-- Truthiness-guarded MAC lookup (`if result.mac_address:` — `None` and the
empty string are both falsy). -/
def mac_manufacturer (env : NetEnv) (mac : Option String) : Option String :=
  match mac with
  | some m => if m ≠ "" then env.manufacturerOf m else none
  | none => none

/-- `NetworkMapper._detailed_local_scan` (`network_mapper.py`, lines
107-137).  No step is guarded by `try`, so an exception from
`classify_device` propagates to the caller; every other step of the
pipeline is total in the source (its own exception handlers swallow
everything). -/
def detailed_local_scan (env : NetEnv) (dev : Device) :
    Except String ScanResult := do
  let manufacturer := mac_manufacturer env dev.mac
  let device_type ← classify_device env dev
  let operating_system := env.osDetect dev.ip
  let protocols := env.protocolsOf dev.ip
  let services := scan_services (env.nmapRows dev.ip) (env.conn dev.ip)
  let open_ports := services.map Prod.fst
  let response_time := env.responseTime dev.ip
  pure { ip_address := dev.ip, mac_address := dev.mac,
         scan_mode := "local_detailed", manufacturer := manufacturer,
         device_type := some device_type,
         operating_system := operating_system, protocols := protocols,
         services := services, open_ports := open_ports,
         response_time := response_time }

/-- `NetworkMapper._discovery_scan` (`network_mapper.py`, lines 139-171):
every step sits in a `try` whose handler leaves the field at its default,
and in this embedding each step is total, so the result is total. -/
def discovery_scan (env : NetEnv) (dev : Device) : ScanResult :=
  let manufacturer := mac_manufacturer env dev.mac
  let device_type := quick_classify (env.conn dev.ip)
  let open_ports := quick_port_scan (env.conn dev.ip) mapper_common_ports
  { ip_address := dev.ip, mac_address := dev.mac, scan_mode := "discovery",
    manufacturer := manufacturer, device_type := some device_type,
    open_ports := open_ports }

/-- `NetworkMapper.scan_network` (`network_mapper.py`, lines 72-105):
discover candidates, then run one per-host pipeline per candidate; the
detailed pipeline is chosen exactly when `mode == "local" and detailed`.
The Python `for` loop appends result after result and an uncaught per-host
exception aborts the whole call, which `List.mapM` over `Except` mirrors. -/
def scan_network (env : NetEnv) (mode : String) (detailed : Bool) :
    Except String (List ScanResult) :=
  let devices := discover_devices env.primary env.hosts env.replies
  if mode == "local" && detailed then
    devices.mapM (detailed_local_scan env)
  else
    Except.ok (devices.map (discovery_scan env))

/-- Default port list of `Config` (`src/config.py`, lines 21-24). -/
def default_ports : List Nat :=
  [21, 22, 23, 25, 53, 80, 110, 143, 443, 993, 995,
   3306, 3389, 5432, 8080, 8443]

/-- `Config.detailed_scan_ports` default, `list(range(1, 1025))`
(`src/config.py`, line 27). -/
def detailed_scan_ports : List Nat := List.range' 1 1024

/-- `Config.quick_scan_ports` default (`src/config.py`, lines 33-36). -/
def quick_scan_ports : List Nat :=
  [21, 22, 23, 25, 53, 80, 110, 143, 443, 993, 995,
   3306, 3389, 5432, 8080, 8443]

/-- Concrete oracle environment for a run in which the primary nmap
discovery raises, one candidate address replies to the ping sweep (its
hostname therefore stored as `None`), and every other network call fails
or is empty. -/
def crashEnv : NetEnv where
  primary := Except.error "nmap not available"
  hosts := ["192.168.1.5"]
  replies := fun _ => true
  conn := fun _ _ => Except.error "connection refused"
  nmapPorts := fun _ => Except.error "nmap not available"
  nmapServiceNames := fun _ => Except.error "nmap not available"
  nmapRows := fun _ => Except.error "nmap not available"
  osDetect := fun _ => none
  protocolsOf := fun _ => []
  responseTime := fun _ => none
  manufacturerOf := fun _ => none

/-- Concrete oracle environment for a run whose primary discovery found one
host with a resolved reverse-DNS hostname, all later probes failing. -/
def hostEnv : NetEnv where
  primary := Except.ok
    [{ ip := "10.0.0.9", mac := none, hostname := some "router-1" }]
  hosts := []
  replies := fun _ => false
  conn := fun _ _ => Except.error "connection refused"
  nmapPorts := fun _ => Except.error "nmap not available"
  nmapServiceNames := fun _ => Except.error "nmap not available"
  nmapRows := fun _ => Except.error "nmap not available"
  osDetect := fun _ => none
  protocolsOf := fun _ => []
  responseTime := fun _ => none
  manufacturerOf := fun _ => none

/-- Concrete oracle environment for a run whose primary discovery found one
named host, all nmap stages raise, and only port 8443 accepts connections. -/
def env8443 : NetEnv where
  primary := Except.ok
    [{ ip := "10.0.0.7", mac := none, hostname := some "host7" }]
  hosts := []
  replies := fun _ => false
  conn := fun _ p => if p = 8443 then Except.ok () else
    Except.error "connection refused"
  nmapPorts := fun _ => Except.error "nmap not available"
  nmapServiceNames := fun _ => Except.error "nmap not available"
  nmapRows := fun _ => Except.error "nmap not available"
  osDetect := fun _ => none
  protocolsOf := fun _ => []
  responseTime := fun _ => none
  manufacturerOf := fun _ => none

/-- The one discovery-mode result of `crashEnv` (all probes refused). -/
def crashDiscResult : ScanResult :=
  { ip_address := "192.168.1.5", mac_address := none,
    device_type := some "unknown", scan_mode := "discovery" }

/-- The one detailed-mode result of `hostEnv`: the hostname substring
"router" wins the classification, yet the result's hostname field stays
unset. -/
def hostDetailedResult : ScanResult :=
  { ip_address := "10.0.0.9", mac_address := none,
    device_type := some "router", scan_mode := "local_detailed" }

/-- The one detailed-mode result of `env8443`: the fallback service scan
reports only port 8443. -/
def detailedResult8443 : ScanResult :=
  { ip_address := "10.0.0.7", mac_address := none,
    device_type := some "unknown", scan_mode := "local_detailed",
    services := [(8443, "https-alt")], open_ports := [8443] }

/-! ### Helper lemmas about the Python `max(..., key=...)` embedding -/

/-- Unfolding `pickMax` over a cons cell. -/
theorem pickMax_cons (b y : String × Nat) (ys : List (String × Nat)) :
    pickMax b (y :: ys) = pickMax (if b.2 < y.2 then y else b) ys := rfl

/-- Unfolding `pickMax` over the empty list. -/
theorem pickMax_nil (b : String × Nat) : pickMax b [] = b := rfl

/-- The running best of `pickMax` never decreases. -/
theorem pickMax_ge (xs : List (String × Nat)) :
    ∀ b : String × Nat, b.2 ≤ (pickMax b xs).2 := by
  induction xs with
  | nil => intro b; exact Nat.le_refl _
  | cons y ys ih =>
    intro b
    rw [pickMax_cons]
    by_cases h : b.2 < y.2
    · rw [if_pos h]
      exact Nat.le_of_lt (Nat.lt_of_lt_of_le h (ih y))
    · rw [if_neg h]
      exact ih b

/-- Python `max` with a key returns the first maximiser: the scanned list
splits around the returned element, everything before it scoring strictly
less and everything after it scoring no more. -/
theorem pickMax_split (xs : List (String × Nat)) :
    ∀ b : String × Nat, ∃ pre post,
      b :: xs = pre ++ pickMax b xs :: post ∧
      (∀ y ∈ pre, y.2 < (pickMax b xs).2) ∧
      (∀ y ∈ post, y.2 ≤ (pickMax b xs).2) := by
  induction xs with
  | nil =>
    intro b
    refine ⟨[], [], rfl, ?_, ?_⟩
    · intro y hy; exact absurd hy (List.not_mem_nil y)
    · intro y hy; exact absurd hy (List.not_mem_nil y)
  | cons y ys ih =>
    intro b
    rw [pickMax_cons]
    by_cases h : b.2 < y.2
    · rw [if_pos h]
      obtain ⟨pre, post, heq, hpre, hpost⟩ := ih y
      refine ⟨b :: pre, post, ?_, ?_, hpost⟩
      · rw [List.cons_append, ← heq]
      · intro z hz
        rcases List.mem_cons.mp hz with hz | hz
        · subst hz
          exact Nat.lt_of_lt_of_le h (pickMax_ge ys y)
        · exact hpre z hz
    · rw [if_neg h]
      obtain ⟨pre, post, heq, hpre, hpost⟩ := ih b
      cases pre with
      | nil =>
        simp only [List.nil_append] at heq
        injection heq with h1 h2
        refine ⟨[], y :: ys, ?_, ?_, ?_⟩
        · rw [List.nil_append, ← h1]
        · intro z hz; exact absurd hz (List.not_mem_nil z)
        · intro z hz
          rcases List.mem_cons.mp hz with hz | hz
          · subst hz
            rw [← h1]
            exact Nat.le_of_not_lt h
          · have := hpost z (h2 ▸ hz)
            exact this
      | cons a pre' =>
        rw [List.cons_append] at heq
        injection heq with h1 h2
        have hblt : b.2 < (pickMax b ys).2 := by
          have := hpre a (List.mem_cons_self a pre')
          rwa [← h1] at this
        refine ⟨b :: y :: pre', post, ?_, ?_, hpost⟩
        · rw [List.cons_append, List.cons_append, ← h2]
        · intro z hz
          rcases List.mem_cons.mp hz with hz | hz
          · subst hz; exact hblt
          rcases List.mem_cons.mp hz with hz | hz
          · subst hz
            exact Nat.lt_of_le_of_lt (Nat.le_of_not_lt h) hblt
          · exact hpre z (List.mem_cons_of_mem a hz)

/-- `pickMax` over a mapped list, phrased on the underlying elements. -/
theorem pickMax_map_split {α : Type} (f : α → String × Nat) (l : List α)
    (b : α) :
    ∃ A B p, b :: l = A ++ p :: B ∧
      pickMax (f b) (l.map f) = f p ∧
      (∀ q ∈ A, (f q).2 < (f p).2) ∧
      (∀ q ∈ B, (f q).2 ≤ (f p).2) := by
  obtain ⟨pre, post, heq, hpre, hpost⟩ := pickMax_split (l.map f) (f b)
  have heq' : (b :: l).map f = pre ++ pickMax (f b) (l.map f) :: post := by
    rw [List.map_cons]; exact heq
  obtain ⟨A, l₂, hbl, hA, hl₂⟩ := List.map_eq_append_iff.mp heq'
  obtain ⟨p, B, hl₂e, hp, hB⟩ := List.map_eq_cons_iff.mp hl₂
  refine ⟨A, B, p, ?_, hp.symm, ?_, ?_⟩
  · rw [hbl, hl₂e]
  · intro q hq
    have hmem : f q ∈ pre := hA ▸ List.mem_map_of_mem f hq
    have := hpre (f q) hmem
    rw [← hp] at this
    exact this
  · intro q hq
    have hmem : f q ∈ post := hB ▸ List.mem_map_of_mem f hq
    have := hpost (f q) hmem
    rw [← hp] at this
    exact this

/-- Master characterisation of `classifyFacts`: the registry splits around a
selected pattern `p` scoring at least every later pattern and strictly more
than every earlier one, and the result is `p.label` if its score is
positive, `"unknown"` otherwise. -/
theorem classifyFacts_split (op : List Nat) (sv : List String) (hn : String) :
    ∃ A B p, device_patterns = A ++ p :: B ∧
      (∀ q ∈ A, scoreDevice op sv hn q < scoreDevice op sv hn p) ∧
      (∀ q ∈ B, scoreDevice op sv hn q ≤ scoreDevice op sv hn p) ∧
      classifyFacts op sv hn =
        (if 0 < scoreDevice op sv hn p then p.label else "unknown") := by
  obtain ⟨A, B, p, hsplit, hpick, hA, hB⟩ :=
    pickMax_map_split (fun q => (q.label, scoreDevice op sv hn q))
      [switchPattern, serverPattern, printerPattern, cameraPattern,
       iotPattern, mobilePattern, workstationPattern] routerPattern
  refine ⟨A, B, p, hsplit, hA, hB, ?_⟩
  show (if 0 < (pickMax
      ((fun q => (q.label, scoreDevice op sv hn q)) routerPattern)
      (List.map (fun q => (q.label, scoreDevice op sv hn q))
        [switchPattern, serverPattern, printerPattern, cameraPattern,
         iotPattern, mobilePattern, workstationPattern])).2
    then (pickMax ((fun q => (q.label, scoreDevice op sv hn q)) routerPattern)
      (List.map (fun q => (q.label, scoreDevice op sv hn q))
        [switchPattern, serverPattern, printerPattern, cameraPattern,
         iotPattern, mobilePattern, workstationPattern])).1
    else "unknown") = _
  rw [hpick]

/-! ### Helper lemmas about scoring and the collection loops -/

/-- A fold adding `k` for every element passing `c` computes `k` times the
count of passing elements. -/
theorem foldl_count {α : Type} (c : α → Bool) (k : Nat) (l : List α) :
    ∀ a : Nat, l.foldl (fun s x => if c x then s + k else s) a =
      a + k * l.countP c := by
  induction l with
  | nil => intro a; simp
  | cons x xs ih =>
    intro a
    rw [List.foldl_cons, List.countP_cons]
    cases h : c x <;> simp [h, ih] <;> ring

/-- The accumulated score of one pattern is the weighted sum of its port,
service and hostname-substring matches. -/
theorem scoreDevice_formula (op : List Nat) (sv : List String) (hn : String)
    (p : DevicePattern) :
    scoreDevice op sv hn p =
      2 * op.countP (fun port => p.ports.contains port) +
      3 * sv.countP (fun s => p.services.contains s) +
      5 * p.patterns.countP (fun ps => occursIn ps.toList (lowerChars hn)) := by
  unfold scoreDevice
  rw [foldl_count, foldl_count, foldl_count]
  ring

/-- Registry labels identify patterns uniquely. -/
theorem device_patterns_label_inj :
    ∀ p ∈ device_patterns, ∀ q ∈ device_patterns, p.label = q.label →
      p = q := by decide

/-- Registry priorities strictly increase in dict insertion order. -/
theorem device_patterns_priority_ascending :
    List.Pairwise (fun a b : DevicePattern => a.priority < b.priority)
      device_patterns := by decide

/-- Collection loop of `_quick_port_check` as a filter: a probed port is
kept exactly when its connection attempt succeeded and it is nonzero. -/
theorem quick_port_check_filter (conn : Nat → Except String Unit)
    (ports : List Nat) :
    quick_port_check conn ports =
      ports.filter (fun p => isOkB (conn p) && p != 0) := by
  have h : ∀ acc, (ports.map (check_port conn)).foldl keep_truthy_port acc =
      acc ++ ports.filter (fun p => isOkB (conn p) && p != 0) := by
    induction ports with
    | nil => intro acc; simp
    | cons p ps ih =>
      intro acc
      rw [List.map_cons, List.foldl_cons]
      cases hc : conn p with
      | ok u =>
        have hcp : check_port conn p = some p := by
          unfold check_port; rw [hc]
        by_cases hp : p = 0
        · subst hp
          have hk : keep_truthy_port acc (some 0) = acc := by
            show (if (0 : Nat) ≠ 0 then acc ++ [0] else acc) = acc
            rw [if_neg (fun h => h rfl)]
          have hfilter : List.filter (fun p => isOkB (conn p) && p != 0)
              (0 :: ps) = List.filter (fun p => isOkB (conn p) && p != 0) ps := by
            rw [List.filter_cons]; simp
          rw [hcp, hk, ih, hfilter]
        · have hk : keep_truthy_port acc (some p) = acc ++ [p] := by
            show (if p ≠ 0 then acc ++ [p] else acc) = acc ++ [p]
            rw [if_pos hp]
          have hfilter : List.filter (fun p => isOkB (conn p) && p != 0)
              (p :: ps) =
              p :: List.filter (fun p => isOkB (conn p) && p != 0) ps := by
            rw [List.filter_cons]; simp [isOkB, hc, hp]
          rw [hcp, hk, ih, hfilter, List.append_assoc]
          rfl
      | error e =>
        have hcp : check_port conn p = none := by
          unfold check_port; rw [hc]
        have hk : keep_truthy_port acc none = acc := rfl
        have hfilter : List.filter (fun p => isOkB (conn p) && p != 0)
            (p :: ps) = List.filter (fun p => isOkB (conn p) && p != 0) ps := by
          rw [List.filter_cons]; simp [isOkB, hc]
        rw [hcp, hk, ih, hfilter]
  have h0 := h []
  rw [List.nil_append] at h0
  exact h0

/-- Collection loop of `quick_port_scan` as a filter (same shape as
`_quick_port_check`). -/
theorem quick_port_scan_eq_filter (conn : Nat → Except String Unit)
    (ports : List Nat) :
    quick_port_scan conn ports =
      ports.filter (fun p => isOkB (conn p) && p != 0) := by
  have h : ∀ acc,
      (ports.map (scanner_check_port conn)).foldl keep_truthy_port acc =
      acc ++ ports.filter (fun p => isOkB (conn p) && p != 0) := by
    induction ports with
    | nil => intro acc; simp
    | cons p ps ih =>
      intro acc
      rw [List.map_cons, List.foldl_cons]
      cases hc : conn p with
      | ok u =>
        have hcp : scanner_check_port conn p = some p := by
          unfold scanner_check_port; rw [hc]
        by_cases hp : p = 0
        · subst hp
          have hk : keep_truthy_port acc (some 0) = acc := by
            show (if (0 : Nat) ≠ 0 then acc ++ [0] else acc) = acc
            rw [if_neg (fun h => h rfl)]
          have hfilter : List.filter (fun p => isOkB (conn p) && p != 0)
              (0 :: ps) = List.filter (fun p => isOkB (conn p) && p != 0) ps := by
            rw [List.filter_cons]; simp
          rw [hcp, hk, ih, hfilter]
        · have hk : keep_truthy_port acc (some p) = acc ++ [p] := by
            show (if p ≠ 0 then acc ++ [p] else acc) = acc ++ [p]
            rw [if_pos hp]
          have hfilter : List.filter (fun p => isOkB (conn p) && p != 0)
              (p :: ps) =
              p :: List.filter (fun p => isOkB (conn p) && p != 0) ps := by
            rw [List.filter_cons]; simp [isOkB, hc, hp]
          rw [hcp, hk, ih, hfilter, List.append_assoc]
          rfl
      | error e =>
        have hcp : scanner_check_port conn p = none := by
          unfold scanner_check_port; rw [hc]
        have hk : keep_truthy_port acc none = acc := rfl
        have hfilter : List.filter (fun p => isOkB (conn p) && p != 0)
            (p :: ps) = List.filter (fun p => isOkB (conn p) && p != 0) ps := by
          rw [List.filter_cons]; simp [isOkB, hc]
        rw [hcp, hk, ih, hfilter]
  have h0 := h []
  rw [List.nil_append] at h0
  exact h0

/-- The ping sweep collects exactly the replying addresses, in order, as
candidates with unset MAC and hostname. -/
theorem ping_discovery_filter (hosts : List String) (replies : String → Bool) :
    ping_discovery hosts replies =
      (hosts.filter replies).map (fun ip => ⟨ip, none, none⟩) := by
  have h : ∀ acc, (hosts.map (ping_host replies)).foldl keep_truthy_device acc =
      acc ++ (hosts.filter replies).map
        (fun ip => (⟨ip, none, none⟩ : Device)) := by
    induction hosts with
    | nil => intro acc; simp
    | cons ip ips ih =>
      intro acc
      rw [List.map_cons, List.foldl_cons]
      cases hr : replies ip with
      | true =>
        have hph : ping_host replies ip = some ⟨ip, none, none⟩ := by
          unfold ping_host; rw [if_pos hr]
        have hk : keep_truthy_device acc (some ⟨ip, none, none⟩) =
            acc ++ [⟨ip, none, none⟩] := rfl
        have hfilter : List.filter replies (ip :: ips) =
            ip :: List.filter replies ips := by
          rw [List.filter_cons, if_pos (by rw [hr])]
        rw [hph, hk, ih, hfilter, List.map_cons, List.append_assoc]
        rfl
      | false =>
        have hph : ping_host replies ip = none := by
          unfold ping_host; rw [if_neg (by rw [hr]; exact Bool.false_ne_true)]
        have hk : keep_truthy_device acc none = acc := rfl
        have hfilter : List.filter replies (ip :: ips) =
            List.filter replies ips := by
          rw [List.filter_cons]; simp [hr]
        rw [hph, hk, ih, hfilter]
  have h0 := h []
  rw [List.nil_append] at h0
  exact h0

/-- The fallback service scan keeps exactly the reachable common services. -/
theorem basic_port_scan_filter (conn : Nat → Except String Unit) :
    basic_port_scan conn =
      common_services.filter (fun pr => isOkB (conn pr.1)) := by
  have h : ∀ (l : List (Nat × String)) acc,
      (l.map (fun pr =>
        match conn pr.1 with
        | Except.ok _ => some pr
        | Except.error _ => none)).foldl keep_truthy_pair acc =
      acc ++ l.filter (fun pr => isOkB (conn pr.1)) := by
    intro l
    induction l with
    | nil => intro acc; simp
    | cons pr prs ih =>
      intro acc
      rw [List.map_cons, List.foldl_cons]
      cases hc : conn pr.1 with
      | ok u =>
        have hfilter : List.filter (fun pr => isOkB (conn pr.1)) (pr :: prs) =
            pr :: List.filter (fun pr => isOkB (conn pr.1)) prs := by
          rw [List.filter_cons]; simp [isOkB, hc]
        rw [ih, hfilter]
        show (acc ++ [pr]) ++ List.filter (fun pr => isOkB (conn pr.1)) prs =
          acc ++ (pr :: List.filter (fun pr => isOkB (conn pr.1)) prs)
        rw [List.append_assoc]
        rfl
      | error e =>
        have hfilter : List.filter (fun pr => isOkB (conn pr.1)) (pr :: prs) =
            List.filter (fun pr => isOkB (conn pr.1)) prs := by
          rw [List.filter_cons]; simp [isOkB, hc]
        rw [ih, hfilter]
        rfl
  have h0 := h common_services []
  rw [List.nil_append] at h0
  exact h0

/-- Keys after a Python dict assignment: unchanged when the key is present,
extended by the new key otherwise. -/
theorem dict_set_keys (d : List (Nat × String)) (k : Nat) (v : String) :
    (dict_set d k v).map Prod.fst =
      if (d.map Prod.fst).contains k then d.map Prod.fst
      else d.map Prod.fst ++ [k] := by
  unfold dict_set
  by_cases h : (d.map Prod.fst).contains k
  · rw [if_pos h, if_pos h, List.map_map]
    refine List.map_eq_map_iff.mpr ?_
    intro a _
    by_cases ha : a.1 == k <;> simp [Function.comp, ha]
  · rw [if_neg h, if_neg h, List.map_append]
    rfl

/-- The dict built from the scan rows has distinct keys, all of them keys
of some row. -/
theorem dict_of_rows_keys (rows : List (Nat × String)) :
    ∀ d : List (Nat × String), (d.map Prod.fst).Nodup →
      (((rows.foldl (fun d pr => dict_set d pr.1 pr.2) d).map
          Prod.fst).Nodup ∧
        ∀ p ∈ (rows.foldl (fun d pr => dict_set d pr.1 pr.2) d).map Prod.fst,
          p ∈ d.map Prod.fst ∨ p ∈ rows.map Prod.fst) := by
  induction rows with
  | nil =>
    intro d hd
    exact ⟨hd, fun p hp => Or.inl hp⟩
  | cons r rs ih =>
    intro d hd
    rw [List.foldl_cons]
    have hkeys := dict_set_keys d r.1 r.2
    have hmem : ∀ p ∈ (dict_set d r.1 r.2).map Prod.fst,
        p ∈ d.map Prod.fst ∨ p = r.1 := by
      intro p hp
      rw [hkeys] at hp
      by_cases h : (d.map Prod.fst).contains r.1
      · rw [if_pos h] at hp; exact Or.inl hp
      · rw [if_neg h] at hp
        rcases List.mem_append.mp hp with hp | hp
        · exact Or.inl hp
        · exact Or.inr (List.mem_singleton.mp hp)
    have hnd : ((dict_set d r.1 r.2).map Prod.fst).Nodup := by
      rw [hkeys]
      by_cases h : (d.map Prod.fst).contains r.1
      · rw [if_pos h]; exact hd
      · rw [if_neg h]
        refine List.Nodup.append hd (List.nodup_singleton _) ?_
        intro a ha hb
        have hb' : a = r.1 := List.mem_singleton.mp hb
        rw [hb'] at ha
        exact h (by simpa using ha)
    obtain ⟨h1, h2⟩ := ih (dict_set d r.1 r.2) hnd
    refine ⟨h1, ?_⟩
    intro p hp
    rcases h2 p hp with hp' | hp'
    · rcases hmem p hp' with hp'' | hp''
      · exact Or.inl hp''
      · exact Or.inr (by rw [List.map_cons, hp'']; exact List.mem_cons_self _ _)
    · exact Or.inr (by rw [List.map_cons]; exact List.mem_cons_of_mem _ hp')

/-- The keys of the common-service table are distinct. -/
theorem common_services_keys_nodup : (common_services.map Prod.fst).Nodup := by
  decide

/-- Whatever branch `scan_services` takes, the resulting service dict has
distinct port keys. -/
theorem scan_services_keys_nodup (nmapRows : Except String (List (Nat × String)))
    (conn : Nat → Except String Unit) :
    ((scan_services nmapRows conn).map Prod.fst).Nodup := by
  cases nmapRows with
  | ok rows =>
    show ((dict_of_rows rows).map Prod.fst).Nodup
    exact (dict_of_rows_keys rows [] (by simp)).1
  | error e =>
    show ((basic_port_scan conn).map Prod.fst).Nodup
    rw [basic_port_scan_filter]
    exact List.Nodup.sublist
      (List.Sublist.map Prod.fst (List.filter_sublist common_services))
      common_services_keys_nodup

/-- Every port key of the fallback service dict is a common-service key. -/
theorem basic_port_scan_keys_sub (conn : Nat → Except String Unit) :
    ∀ p ∈ (basic_port_scan conn).map Prod.fst,
      p ∈ common_services.map Prod.fst := by
  intro p hp
  rw [basic_port_scan_filter] at hp
  exact (List.Sublist.map Prod.fst
    (List.filter_sublist common_services)).mem hp

/-- A successful `mapM` over `Except` produces each output from some input. -/
theorem mapM_ok_mem {α β : Type} (f : α → Except String β) :
    ∀ (l : List α) (res : List β), l.mapM f = Except.ok res →
      ∀ r ∈ res, ∃ d ∈ l, f d = Except.ok r := by
  intro l
  induction l with
  | nil =>
    intro res h r hr
    rw [List.mapM_nil] at h
    cases h
    cases hr
  | cons x xs ih =>
    intro res h r hr
    rw [List.mapM_cons] at h
    cases hfx : f x with
    | error e =>
      rw [hfx] at h
      cases h
    | ok b =>
      rw [hfx] at h
      cases hxs : xs.mapM f with
      | error e =>
        rw [hxs] at h
        cases h
      | ok bs =>
        rw [hxs] at h
        cases h
        rcases List.mem_cons.mp hr with hr | hr
        · exact ⟨x, List.mem_cons_self x xs, by rw [hfx, hr]⟩
        · obtain ⟨d, hd, hfd⟩ := ih bs hxs r hr
          exact ⟨d, List.mem_cons_of_mem x hd, hfd⟩

/-- A successful detailed per-host scan determines the whole record: the
classifier succeeded and every field is the corresponding pipeline value. -/
theorem detailed_local_scan_ok (env : NetEnv) (dev : Device) (r : ScanResult)
    (h : detailed_local_scan env dev = Except.ok r) :
    ∃ dt, classify_device env dev = Except.ok dt ∧
      r = { ip_address := dev.ip, mac_address := dev.mac,
            scan_mode := "local_detailed",
            manufacturer := mac_manufacturer env dev.mac,
            device_type := some dt,
            operating_system := env.osDetect dev.ip,
            protocols := env.protocolsOf dev.ip,
            services := scan_services (env.nmapRows dev.ip) (env.conn dev.ip),
            open_ports := (scan_services (env.nmapRows dev.ip)
              (env.conn dev.ip)).map Prod.fst,
            response_time := env.responseTime dev.ip } := by
  unfold detailed_local_scan at h
  cases hcd : classify_device env dev with
  | error e =>
    rw [hcd] at h
    cases h
  | ok dt =>
    rw [hcd] at h
    cases h
    exact ⟨dt, rfl, rfl⟩

/-! ### Claim theorems -/

/-- C6: for every ping reply whose output parses to a TTL value `t`, the
fallback OS detector returns the TTL classification, and that
classification maps `t ≤ 64` to Linux/macOS, `64 < t ≤ 128` to Windows,
`128 < t ≤ 255` to Network Device and `t > 255` to Unknown — in particular
TTL 64 to Linux/macOS and TTL 128 to Windows. -/
theorem ttl_fallback_classification (t : Nat) :
    detect_os_by_ttl true (some t) = some (classifyTTL t) ∧
    (t ≤ 64 → classifyTTL t = "Linux/macOS") ∧
    (64 < t → t ≤ 128 → classifyTTL t = "Windows") ∧
    (128 < t → t ≤ 255 → classifyTTL t = "Network Device") ∧
    (255 < t → classifyTTL t = "Unknown") := by
  refine ⟨rfl, ?_, ?_, ?_, ?_⟩
  · intro h
    unfold classifyTTL
    rw [if_pos h]
  · intro h1 h2
    unfold classifyTTL
    rw [if_neg (by omega), if_pos h2]
  · intro h1 h2
    unfold classifyTTL
    rw [if_neg (by omega), if_neg (by omega), if_pos h2]
  · intro h1
    unfold classifyTTL
    rw [if_neg (by omega), if_neg (by omega), if_neg (by omega)]

/-- Witness for C6 at the concrete TTL values 64, 128, 255 and 256. -/
theorem ttl_fallback_classification_witness :
    classifyTTL 64 = "Linux/macOS" ∧ classifyTTL 128 = "Windows" ∧
    classifyTTL 255 = "Network Device" ∧ classifyTTL 256 = "Unknown" :=
  ⟨(ttl_fallback_classification 64).2.1 (by decide),
   (ttl_fallback_classification 128).2.2.1 (by decide) (by decide),
   (ttl_fallback_classification 255).2.2.2.1 (by decide) (by decide),
   (ttl_fallback_classification 256).2.2.2.2 (by decide)⟩

/-- C7: when the primary bulk discovery raises, `discover_devices` returns
the ping-sweep fallback result instead of propagating the failure, and a
sweep in which no candidate address replies yields the empty list as a
valid (non-error) result. -/
theorem discover_devices_fallback (e : String) (hosts : List String)
    (replies : String → Bool) :
    discover_devices (Except.error e) hosts replies =
      ping_discovery hosts replies ∧
    ((∀ h ∈ hosts, replies h = false) →
      discover_devices (Except.error e) hosts replies = []) := by
  refine ⟨rfl, ?_⟩
  intro hall
  show ping_discovery hosts replies = []
  rw [ping_discovery_filter]
  have hnil : hosts.filter replies = [] := by
    rw [List.filter_eq_nil_iff]
    intro a ha
    rw [hall a ha]
    exact Bool.false_ne_true
  rw [hnil]
  rfl

/-- Witness for C7: a concrete failing primary and a two-address sweep with
no replies produce the empty device list. -/
theorem discover_devices_fallback_witness :
    discover_devices (Except.error "nmap not available")
      ["10.0.0.1", "10.0.0.2"] (fun _ => false) = [] :=
  (discover_devices_fallback "nmap not available" ["10.0.0.1", "10.0.0.2"]
    (fun _ => false)).2 (fun _ _ => rfl)

/-- C5 (amended): `quick_port_scan` returns, in probe order, exactly those
probed ports whose connection attempt succeeded within the timeout, except
that a successful probe of port 0 is dropped by the
`if result and isinstance(result, int)` truthiness test; any per-port
failure only makes that port absent, and the function is total — no error
reaches the caller. -/
theorem quick_port_scan_exact (conn : Nat → Except String Unit)
    (ports : List Nat) :
    quick_port_scan conn ports =
      ports.filter (fun p => isOkB (conn p) && p != 0) :=
  quick_port_scan_eq_filter conn ports

/-- Counterexample for C5 as stated: probing just port 0 with a successful
connection oracle reports no open port at all, so the result is not exactly
the set of successfully probed ports. -/
theorem quick_port_scan_zero_cex :
    isOkB ((fun _ : Nat => (Except.ok () : Except String Unit)) 0) = true ∧
    quick_port_scan (fun _ => Except.ok ()) [0] = [] ∧
    quick_port_scan (fun _ => Except.ok ()) [0] ≠ [0] := by
  refine ⟨rfl, rfl, ?_⟩
  decide

/-- C8: `quick_classify` implements exactly the claimed decision ladder —
printer on 9100, else workstation on 3389, else server on 22 ∧ 80, else
device on 80 ∨ 443, else unknown — where "open" means the connection probe
of that port from the fixed set {22, 23, 80, 443, 3389, 9100} succeeded. -/
theorem quick_classify_decision (conn : Nat → Except String Unit) :
    quick_classify conn =
      (if isOkB (conn 9100) then "printer"
       else if isOkB (conn 3389) then "workstation"
       else if isOkB (conn 22) && isOkB (conn 80) then "server"
       else if isOkB (conn 80) || isOkB (conn 443) then "device"
       else "unknown") := by
  unfold quick_classify quick_classify_common_ports
  rw [quick_port_check_filter]
  cases h22 : isOkB (conn 22) <;> cases h23 : isOkB (conn 23) <;>
    cases h80 : isOkB (conn 80) <;> cases h443 : isOkB (conn 443) <;>
    cases h3389 : isOkB (conn 3389) <;> cases h9100 : isOkB (conn 9100) <;>
    simp [h22, h23, h80, h443, h3389, h9100, List.filter_cons]

/-- C3: the classifier scores each pattern as +2 per matching open port,
+3 per matching service, +5 per pattern substring of the lower-cased
hostname; a pattern strictly out-scoring every other is returned, and an
all-zero scoreboard yields "unknown". -/
theorem classify_device_scoring (op : List Nat) (sv : List String)
    (hn : String) :
    (∀ p : DevicePattern, scoreDevice op sv hn p =
        2 * op.countP (fun port => p.ports.contains port) +
        3 * sv.countP (fun s => p.services.contains s) +
        5 * p.patterns.countP (fun ps => occursIn ps.toList (lowerChars hn))) ∧
    (∀ p ∈ device_patterns, 0 < scoreDevice op sv hn p →
      (∀ q ∈ device_patterns, q.label ≠ p.label →
        scoreDevice op sv hn q < scoreDevice op sv hn p) →
      classifyFacts op sv hn = p.label) ∧
    ((∀ q ∈ device_patterns, scoreDevice op sv hn q = 0) →
      classifyFacts op sv hn = "unknown") := by
  refine ⟨scoreDevice_formula op sv hn, ?_, ?_⟩
  · intro p hp hpos hmax
    obtain ⟨A, B, p', hsplit, hA, hB, hcf⟩ := classifyFacts_split op sv hn
    have hp' : p' ∈ device_patterns := by
      rw [hsplit]
      exact List.mem_append_right A (List.mem_cons_self _ _)
    by_cases hlab : p'.label = p.label
    · have hpe : p' = p := device_patterns_label_inj p' hp' p hp hlab
      subst hpe
      rw [hcf, if_pos hpos]
    · have hlt : scoreDevice op sv hn p' < scoreDevice op sv hn p :=
        hmax p' hp' hlab
      have hpmem : p ∈ A ++ p' :: B := by rw [← hsplit]; exact hp
      rcases List.mem_append.mp hpmem with hpa | hpb
      · have := hA p hpa
        exact absurd this (by omega)
      · rcases List.mem_cons.mp hpb with hpe | hpb
        · exact absurd (congrArg DevicePattern.label hpe.symm) hlab
        · have := hB p hpb
          exact absurd this (by omega)
  · intro hall
    obtain ⟨A, B, p', hsplit, hA, hB, hcf⟩ := classifyFacts_split op sv hn
    have hp' : p' ∈ device_patterns := by
      rw [hsplit]
      exact List.mem_append_right A (List.mem_cons_self _ _)
    rw [hcf, if_neg (by rw [hall p' hp']; exact Nat.lt_irrefl 0)]

/-- Witness for C3: a host with only port 80 open and hostname containing
"nginx" classifies as "server" (the +5 substring weight dominating), via
the strict-max part of the theorem. -/
theorem classify_device_scoring_witness :
    classifyFacts [80] [] "nginx-box" = "server" :=
  (classify_device_scoring [80] [] "nginx-box").2.1 serverPattern
    (by decide) (by decide) (by decide)

/-- C1: whenever two or more registry patterns attain the same
strictly-highest positive score, the classifier returns the label of a
max-scoring pattern whose declared priority is minimal among all
max-scoring patterns (the embedding is a function of the host facts, hence
deterministic). -/
theorem classify_device_tie_break (op : List Nat) (sv : List String)
    (hn : String) (p1 p2 : DevicePattern)
    (h1 : p1 ∈ device_patterns) (h2 : p2 ∈ device_patterns)
    (hne : p1.label ≠ p2.label)
    (htop : ∀ q ∈ device_patterns,
      scoreDevice op sv hn q ≤ scoreDevice op sv hn p1)
    (heq : scoreDevice op sv hn p2 = scoreDevice op sv hn p1)
    (hpos : 0 < scoreDevice op sv hn p1) :
    ∃ p ∈ device_patterns, classifyFacts op sv hn = p.label ∧
      scoreDevice op sv hn p = scoreDevice op sv hn p1 ∧
      ∀ q ∈ device_patterns,
        scoreDevice op sv hn q = scoreDevice op sv hn p1 →
        p.priority ≤ q.priority := by
  obtain ⟨A, B, p', hsplit, hA, hB, hcf⟩ := classifyFacts_split op sv hn
  have hp' : p' ∈ device_patterns := by
    rw [hsplit]
    exact List.mem_append_right A (List.mem_cons_self _ _)
  have hle : scoreDevice op sv hn p' ≤ scoreDevice op sv hn p1 := htop p' hp'
  have hge : scoreDevice op sv hn p1 ≤ scoreDevice op sv hn p' := by
    have hmem : p1 ∈ A ++ p' :: B := by rw [← hsplit]; exact h1
    rcases List.mem_append.mp hmem with hpa | hpb
    · exact Nat.le_of_lt (hA p1 hpa)
    · rcases List.mem_cons.mp hpb with hpe | hpb
      · subst hpe
        exact Nat.le_refl _
      · exact hB p1 hpb
  have heqscore : scoreDevice op sv hn p' = scoreDevice op sv hn p1 :=
    Nat.le_antisymm hle hge
  refine ⟨p', hp', ?_, heqscore, ?_⟩
  · rw [hcf, if_pos (heqscore.symm ▸ hpos)]
  · intro q hq hqs
    have hqmem : q ∈ A ++ p' :: B := by rw [← hsplit]; exact hq
    rcases List.mem_append.mp hqmem with hqa | hqb
    · have hlt := hA q hqa
      rw [hqs] at hlt
      rw [heqscore] at hlt
      exact absurd hlt (Nat.lt_irrefl _)
    · rcases List.mem_cons.mp hqb with hqe | hqb
      · subst hqe
        exact Nat.le_refl _
      · have hpw := device_patterns_priority_ascending
        rw [hsplit] at hpw
        have hcons := (List.pairwise_append.mp hpw).2.1
        exact Nat.le_of_lt ((List.pairwise_cons.mp hcons).1 q hqb)

/-- Witness for C1: with only port 22 open, router, switch, server and
workstation all tie at the maximal score 2, and the classifier returns
"router", the tied pattern with the lowest priority (1). -/
theorem classify_device_tie_break_witness :
    ∃ p ∈ device_patterns, classifyFacts [22] [] "" = p.label ∧
      scoreDevice [22] [] "" p = scoreDevice [22] [] "" routerPattern ∧
      ∀ q ∈ device_patterns,
        scoreDevice [22] [] "" q = scoreDevice [22] [] "" routerPattern →
        p.priority ≤ q.priority :=
  classify_device_tie_break [22] [] "" routerPattern switchPattern
    (by decide) (by decide) (by decide) (by decide) (by decide) (by decide)

/-- C2 (code bug evaluation): the ping-sweep fallback stores `None`
hostnames, and on such a candidate the unguarded detailed pipeline lets
`classify_device`'s AttributeError escape, so `scan_network` in
local+detailed mode aborts with no per-host result at all — while the
guarded discovery pipeline on the same candidate emits its one result. -/
theorem scan_network_detailed_abort :
    discover_devices crashEnv.primary crashEnv.hosts crashEnv.replies =
      [{ ip := "192.168.1.5", mac := none, hostname := none }] ∧
    scan_network crashEnv "local" true = Except.error "AttributeError" ∧
    scan_network crashEnv "discovery" false = Except.ok [crashDiscResult] :=
  ⟨rfl, rfl, rfl⟩

/-- C9: with `detailed = false`, mode "local" takes exactly the discovery
branch — result-for-result identical to mode "discovery", every emitted
record carrying scan_mode "discovery" — and the detailed per-host pipeline
runs only when the mode is "local" and `detailed` is true. -/
theorem scan_network_mode_dispatch (env : NetEnv) :
    scan_network env "local" false = scan_network env "discovery" false ∧
    (∀ mode : String, ∀ detailed : Bool,
      ¬(mode = "local" ∧ detailed = true) →
      scan_network env mode detailed =
        Except.ok ((discover_devices env.primary env.hosts env.replies).map
          (discovery_scan env))) ∧
    (∀ results, scan_network env "local" false = Except.ok results →
      ∀ r ∈ results, r.scan_mode = "discovery") ∧
    scan_network env "local" true =
      (discover_devices env.primary env.hosts env.replies).mapM
        (detailed_local_scan env) := by
  have hbranch : ∀ (mode : String) (detailed : Bool),
      ¬(mode = "local" ∧ detailed = true) →
      scan_network env mode detailed =
        Except.ok ((discover_devices env.primary env.hosts env.replies).map
          (discovery_scan env)) := by
    intro mode detailed hnot
    unfold scan_network
    have hcond : (mode == "local" && detailed) = false := by
      cases detailed
      · exact Bool.and_false _
      · rw [Bool.and_true, beq_eq_false_iff_ne]
        intro hmode
        exact hnot ⟨hmode, rfl⟩
    rw [hcond]
    rfl
  refine ⟨?_, hbranch, ?_, ?_⟩
  · rw [hbranch "local" false (by simp), hbranch "discovery" false (by simp)]
  · intro results hres r hr
    rw [hbranch "local" false (by simp)] at hres
    injection hres with hres
    subst hres
    obtain ⟨d, hd, hdr⟩ := List.mem_map.mp hr
    rw [← hdr]
    rfl
  · rfl

/-- Witness for C9 at the concrete `crashEnv`: the non-detailed local scan
equals the discovery scan, and its one emitted result carries scan_mode
"discovery". -/
theorem scan_network_mode_dispatch_witness :
    scan_network crashEnv "local" false =
      scan_network crashEnv "discovery" false ∧
    crashDiscResult.scan_mode = "discovery" :=
  ⟨(scan_network_mode_dispatch crashEnv).1,
   (scan_network_mode_dispatch crashEnv).2.2.1 [crashDiscResult] rfl
     crashDiscResult (List.mem_singleton.mpr rfl)⟩

/-- C10: every ScanResult that `scan_network` emits, in either mode, has an
unset hostname — neither per-host constructor copies the candidate's
resolved hostname into the result. -/
theorem scan_result_hostname_unset (env : NetEnv) (mode : String)
    (detailed : Bool) (results : List ScanResult)
    (h : scan_network env mode detailed = Except.ok results) :
    ∀ r ∈ results, r.hostname = none := by
  intro r hr
  unfold scan_network at h
  by_cases hmd : (mode == "local" && detailed) = true
  · rw [if_pos hmd] at h
    obtain ⟨d, hd, hfd⟩ :=
      mapM_ok_mem (detailed_local_scan env) _ results h r hr
    obtain ⟨dt, _, hrec⟩ := detailed_local_scan_ok env d r hfd
    rw [hrec]
  · rw [if_neg hmd] at h
    injection h with h
    subst h
    obtain ⟨d, hd, hdr⟩ := List.mem_map.mp hr
    rw [← hdr]
    rfl

/-- Witness for C10: in `hostEnv` the discovery resolved hostname
"router-1" (which even decides the classification), yet the detailed
result's hostname field is `none`. -/
theorem scan_result_hostname_unset_witness :
    hostDetailedResult.hostname = none :=
  scan_result_hostname_unset hostEnv "local" true [hostDetailedResult] rfl
    hostDetailedResult (List.mem_singleton.mpr rfl)

/-- Counterexample for C4 as stated: a local detailed scan whose nmap
stages raise reports open port 8443 from the fallback service scan, and
8443 lies outside the configured detailed-scan port universe
`range(1, 1025)`. -/
theorem open_ports_universe_cex :
    scan_network env8443 "local" true = Except.ok [detailedResult8443] ∧
    detailedResult8443.open_ports = [8443] ∧
    8443 ∉ detailed_scan_ports := by
  refine ⟨rfl, rfl, ?_⟩
  intro h
  rw [detailed_scan_ports, List.mem_range'_1] at h
  omega

/-- C4 (amended): every emitted ScanResult has duplicate-free open_ports;
whenever the discovery pipeline runs (mode not local-with-detailed) every
open port belongs to the configured discovery port set; in the detailed
pipeline open_ports is exactly the key set of the scanned service dict,
which the counterexample shows need not lie in the configured
detailed-scan port set. -/
theorem scan_result_open_ports_invariant (env : NetEnv) (mode : String)
    (detailed : Bool) (results : List ScanResult)
    (h : scan_network env mode detailed = Except.ok results) :
    ∀ r ∈ results, r.open_ports.Nodup ∧
      (¬(mode = "local" ∧ detailed = true) →
        ∀ p ∈ r.open_ports, p ∈ quick_scan_ports) ∧
      ((mode = "local" ∧ detailed = true) →
        r.open_ports = r.services.map Prod.fst) := by
  intro r hr
  have hiff : (mode == "local" && detailed) = true ↔
      (mode = "local" ∧ detailed = true) := by
    rw [Bool.and_eq_true, beq_iff_eq]
  unfold scan_network at h
  by_cases hmd : (mode == "local" && detailed) = true
  · rw [if_pos hmd] at h
    obtain ⟨d, hd, hfd⟩ :=
      mapM_ok_mem (detailed_local_scan env) _ results h r hr
    obtain ⟨dt, _, hrec⟩ := detailed_local_scan_ok env d r hfd
    subst hrec
    refine ⟨?_, ?_, ?_⟩
    · exact scan_services_keys_nodup _ _
    · intro hnot
      exact absurd (hiff.mp hmd) hnot
    · intro _
      rfl
  · rw [if_neg hmd] at h
    injection h with h
    subst h
    obtain ⟨d, hd, hdr⟩ := List.mem_map.mp hr
    rw [← hdr]
    refine ⟨?_, ?_, ?_⟩
    · show (quick_port_scan (env.conn d.ip) mapper_common_ports).Nodup
      rw [quick_port_scan_eq_filter]
      exact List.Nodup.filter _ (by decide)
    · intro _ p hp
      have hp' : p ∈ mapper_common_ports := by
        have hp2 : p ∈ quick_port_scan (env.conn d.ip) mapper_common_ports :=
          hp
        rw [quick_port_scan_eq_filter] at hp2
        exact List.mem_of_mem_filter hp2
      exact (by decide : ∀ x ∈ mapper_common_ports, x ∈ quick_scan_ports)
        p hp'
    · intro hmd'
      exact absurd (hiff.mpr hmd') hmd

/-- Witness for C4 (amended) at `env8443`: the detailed result's open ports
are duplicate-free and coincide with its service keys. -/
theorem scan_result_open_ports_invariant_witness :
    detailedResult8443.open_ports.Nodup ∧
    detailedResult8443.open_ports =
      detailedResult8443.services.map Prod.fst := by
  have h := scan_result_open_ports_invariant env8443 "local" true
    [detailedResult8443] rfl detailedResult8443 (List.mem_singleton.mpr rfl)
  exact ⟨h.1, h.2.2 ⟨rfl, rfl⟩⟩

end NetMapper
